import Mathlib

/-!
Verification development for the VGG model definitions in `src/models/vgg.py`
(power_laws_deep_ensembles).

The Python file is glue code over torch and over a curve-aware layer library
(`curves`): it computes channel configurations (`get_config`), parameter-count
formulas (`get_size`, `compute_k`), builds layer lists (`make_layers`) and two
module classes (`VGGBase`, `VGGCurve`) whose `forward` methods apply the stored
modules in a fixed order.

The embedding below models layers and modules as inductive data recording
exactly the constructor and the arguments used at each construction site, and
models each `forward` method as the sequence of module applications it performs
(a trace), including the truncating semantics of Python `zip`.  Randomized
weight initialization is modelled by recording, per initialized layer, the
distribution parameters and the bias zeroing performed by the init loop.
`compute_k` uses `np.sqrt`/`np.round`; following the claims it is modelled over
exact real arithmetic, with `np.round`'s half-to-even behaviour made explicit.
-/

namespace VGGSpec

/-- Value of the `fix_points` argument that `vgg.py` forwards to the curve
layer library: one Boolean per curve bend. -/
abbrev FixPoints := List Bool

/-- Layers appended to `layer_blocks` by `make_layers` (vgg.py lines 33-57):
plain torch layers when `fix_points` is `None`, curve-library layers carrying
the `fix_points` keyword argument otherwise.  Each constructor records exactly
the arguments of the corresponding Python construction site. -/
inductive VLayer where
  | plainConv (in_channels out_channels kernel_size padding : Nat)
  | plainBN (num_features : Nat)
  | curveConv (in_channels out_channels kernel_size padding : Nat) (fix_points : FixPoints)
  | curveBN (num_features : Nat) (fix_points : FixPoints)
  deriving DecidableEq

/-- Activation modules appended to `activation_blocks` (vgg.py line 54). -/
inductive ActLayer where
  | relu (inplace : Bool)
  deriving DecidableEq

/-- Pooling modules appended to `poolings` (vgg.py line 56). -/
inductive PoolLayer where
  | maxPool2d (kernel_size stride : Nat)
  deriving DecidableEq

/-- Modules of the `nn.Sequential` classifier of `VGGBase` (vgg.py lines
70-78); the dropout probability is kept as an exact rational. -/
inductive ClassifierLayer where
  | dropout (p : ℚ)
  | linear (in_features out_features : Nat)
  | relu (inplace : Bool)
  deriving DecidableEq

/-- Modelled from the spec: a `curves.Linear` module of the external
curve-aware layer library (`curves` is imported by vgg.py but its source is not
part of `src/`).  Per the spec each such learnable layer is configured by its
feature sizes and the `fix_points` it receives. -/
structure CurveLinear where
  in_features : Nat
  out_features : Nat
  fix_points : FixPoints
  deriving DecidableEq

/-- Python `get_size` (vgg.py lines 14-17), stated over an arbitrary
commutative semiring so that the one formula serves both the natural-number
parameter count (claim C9) and the exact-real round trip (claim C8). -/
def get_size {R : Type} [CommSemiring R] (k : R) (num_classes : R) : R :=
  (3*9+2+2*2+4*3+8*8+8*num_classes)*k +
    ((1+2*1+2*2+4*2+2*4*4+8*4+5*8*8)*9 + 2*8*8)*k*k + num_classes

/-- Rounding half to even on exact reals: the behaviour of `np.round`, which
vgg.py line 23 applies to the quadratic-formula root. -/
noncomputable def np_round (x : ℝ) : ℝ :=
  if Int.fract x = 1/2 then (if Even ⌊x⌋ then (⌊x⌋ : ℝ) else (⌊x⌋ : ℝ) + 1)
  else ((round x : ℤ) : ℝ)

/-- Python `compute_k` (vgg.py lines 18-23) with `np.sqrt`/`np.round` read as
exact real operations, as claim C8 prescribes. -/
noncomputable def compute_k (N : ℝ) (num_classes : ℝ) : ℝ :=
  let a : ℝ := (1+2*1+2*2+4*2+2*4*4+8*4+5*8*8)*9 + 2*8*8
  let b : ℝ := 3*9+2+2*2+4*3+8*8+8*num_classes
  let c : ℝ := num_classes
  np_round ((-b + Real.sqrt (4*a*N + (b^2 - 4*a*c)))/2/a)

/-- Python `get_config` (vgg.py lines 26-30). -/
def get_config (depth : Nat) (k : Nat) : List (List Nat) :=
  if depth = 16 then
    [[k, k], [k*2, k*2], [k*4, k*4, k*4], [k*8, k*8, k*8], [k*8, k*8, k*8]]
  else
    [[64, 64], [128, 128], [256, 256, 256, 256], [512, 512, 512, 512], [512, 512, 512, 512]]

/-- Convolution constructor selected by `make_layers` (vgg.py lines 39 and 43):
`nn.Conv2d` without extra keyword arguments when `fix_points` is `None`, and
`curves.Conv2d` receiving `fix_points` otherwise.  The call site (line 51)
always passes `kernel_size=3, padding=1`. -/
def convCtor : Option FixPoints → Nat → Nat → VLayer
  | none, i, o => VLayer.plainConv i o 3 1
  | some fp, i, o => VLayer.curveConv i o 3 1 fp

/-- Batch-normalization constructor selected by `make_layers` (vgg.py lines 40
and 44), applied at line 53. -/
def bnCtor : Option FixPoints → Nat → VLayer
  | none, c => VLayer.plainBN c
  | some fp, c => VLayer.curveBN c fp

/-- Inner loop of `make_layers` over one config block (vgg.py lines 50-55):
for each channel count, append a convolution from the running `in_channels`,
then the batch-normalization layer when `batch_norm` holds, threading
`in_channels := channels`. -/
def blockLayers (conv : Nat → Nat → VLayer) (bnF : Nat → VLayer) (batch_norm : Bool) :
    Nat → List Nat → List VLayer
  | _, [] => []
  | in_channels, channels :: rest =>
      conv in_channels channels ::
        ((if batch_norm then [bnF channels] else []) ++
          blockLayers conv bnF batch_norm channels rest)

/-- Value of the running `in_channels` variable after a block (vgg.py line 55):
the last entry of `sizes`, or the incoming value when the block is empty. -/
def lastChannels : Nat → List Nat → Nat
  | c, [] => c
  | _, ch :: rest => lastChannels ch rest

/-- Outer loop of `make_layers` (vgg.py lines 47-56) restricted to the
`layer_blocks` component, threading `in_channels` across blocks. -/
def layerBlocksFrom (conv : Nat → Nat → VLayer) (bnF : Nat → VLayer) (batch_norm : Bool) :
    Nat → List (List Nat) → List (List VLayer)
  | _, [] => []
  | in_channels, sizes :: rest =>
      blockLayers conv bnF batch_norm in_channels sizes ::
        layerBlocksFrom conv bnF batch_norm (lastChannels in_channels sizes) rest

/-- Python `make_layers` (vgg.py lines 33-57).  The single Python loop builds
three parallel module lists; they are given here componentwise: the layer
blocks (convolutions interleaved with optional batch normalization, with
`in_channels` starting at 3), one `ReLU(inplace=True)` per convolution, and
one `MaxPool2d(kernel_size=2, stride=2)` per config block. -/
def make_layers (config : List (List Nat)) (batch_norm : Bool) (fp? : Option FixPoints) :
    List (List VLayer) × List (List ActLayer) × List PoolLayer :=
  (layerBlocksFrom (convCtor fp?) (bnCtor fp?) batch_norm 3 config,
   config.map (fun sizes => sizes.map (fun _ => ActLayer.relu true)),
   config.map (fun _ => PoolLayer.maxPool2d 2 2))

/-- State of a constructed `VGGBase` module (vgg.py lines 60-86): the three
module lists from `make_layers`, the classifier stack, and the optional
`InstanceNorm1d` created iff `use_InstanceNorm`. -/
structure VGGBase where
  layer_blocks : List (List VLayer)
  activation_blocks : List (List ActLayer)
  poolings : List PoolLayer
  use_InstanceNorm : Bool
  classifier : List ClassifierLayer
  normalization : Option Nat
  deriving DecidableEq

/-- Python `VGGBase.__init__` (vgg.py lines 61-80).  `config[-1][-1]` is the
last entry of the last block; every config produced by `get_config` is
nonempty, so the default-valued `getLastD` agrees with the Python indexing on
all reachable inputs. -/
def VGGBase.init (num_classes depth : Nat) (batch_norm : Bool) (k : Nat) (p : ℚ)
    (use_InstanceNorm : Bool) : VGGBase :=
  let config := get_config depth k
  let parts := make_layers config batch_norm none
  ⟨parts.1, parts.2.1, parts.2.2, use_InstanceNorm,
   [ClassifierLayer.dropout p,
    ClassifierLayer.linear ((config.getLastD []).getLastD 0) (8*k),
    ClassifierLayer.relu true,
    ClassifierLayer.dropout p,
    ClassifierLayer.linear (8*k) (8*k),
    ClassifierLayer.relu true,
    ClassifierLayer.linear (8*k) num_classes],
   if use_InstanceNorm then some num_classes else none⟩

/-- One step of a `forward` computation: which module is applied, and whether
the call passes the curve coefficients (`layer(x, coeffs_t)` versus
`layer(x)`). -/
inductive Op where
  | apply_layer (l : VLayer) (with_coeffs : Bool)
  | apply_act (a : ActLayer) (with_coeffs : Bool)
  | apply_pool (p : PoolLayer) (with_coeffs : Bool)
  | flatten_view
  | apply_classifier (c : ClassifierLayer) (with_coeffs : Bool)
  | apply_curve_linear (fc : CurveLinear) (with_coeffs : Bool)
  | reshape_3d
  | apply_instance_norm (num_features : Nat)
  | reshape_2d
  deriving DecidableEq

/-- Trace of `VGGBase.forward` (vgg.py lines 88-102).  Python `zip` truncates
to the shorter list, which `List.zip` reproduces: blocks are paired with their
activation lists and poolings, and within a block layers are paired with
activations.  After the blocks: flatten, the classifier stack in order, and
the `InstanceNorm1d` branch (with its two reshaping views) iff
`use_InstanceNorm`. -/
def VGGBase.forwardTrace (m : VGGBase) : List Op :=
  ((m.layer_blocks.zip (m.activation_blocks.zip m.poolings)).flatMap fun bl =>
      ((bl.1.zip bl.2.1).flatMap fun la => [Op.apply_layer la.1 false, Op.apply_act la.2 false])
        ++ [Op.apply_pool bl.2.2 false])
    ++ [Op.flatten_view]
    ++ m.classifier.map (fun c => Op.apply_classifier c false)
    ++ (if m.use_InstanceNorm then
          [Op.reshape_3d, Op.apply_instance_norm (m.normalization.getD 0), Op.reshape_2d]
        else [])

/-- Record of one action of the `VGGBase` initialization loop (vgg.py lines
82-86) on an `nn.Conv2d` module: the weight is redrawn from a normal
distribution with the recorded mean and squared standard deviation
(`sq_std = 2/n` for `n = kernel_size[0]*kernel_size[1]*out_channels`, so the
standard deviation is `sqrt(2/n)`), and the bias is zeroed. -/
structure ConvInitAction where
  mean : ℚ
  sq_std : ℚ
  bias_zeroed : Bool
  deriving DecidableEq

/-- Actions of the `VGGBase` init loop (vgg.py lines 82-86): `self.modules()`
is scanned and every `nn.Conv2d` is initialized.  Only `layer_blocks` can
contain convolution modules (the classifier holds `Dropout`/`Linear`/`ReLU`),
so the scan is over the flattened layer blocks. -/
def baseInitActions (m : VGGBase) : List (VLayer × ConvInitAction) :=
  m.layer_blocks.flatten.filterMap fun l =>
    match l with
    | VLayer.plainConv i o ks pd =>
        some (VLayer.plainConv i o ks pd, ⟨0, 2 / ((ks*ks*o : ℕ) : ℚ), true⟩)
    | _ => none

/-- State of a constructed `VGGCurve` module (vgg.py lines 105-129): the three
module lists from `make_layers` (in curve mode) and the three `curves.Linear`
classifier layers. -/
structure VGGCurve where
  layer_blocks : List (List VLayer)
  activation_blocks : List (List ActLayer)
  poolings : List PoolLayer
  fc1 : CurveLinear
  fc2 : CurveLinear
  fc3 : CurveLinear
  deriving DecidableEq

/-- Python `VGGCurve.__init__` (vgg.py lines 106-121): `make_layers` is called
with the given `fix_points`, and the fully-connected layers are
`curves.Linear(512, 512)`, `curves.Linear(512, 512)` and
`curves.Linear(512, num_classes)`, each receiving `fix_points`. -/
def VGGCurve.init (num_classes : Nat) (fp : FixPoints) (depth k : Nat)
    (batch_norm : Bool) : VGGCurve :=
  let parts := make_layers (get_config depth k) batch_norm (some fp)
  ⟨parts.1, parts.2.1, parts.2.2,
   ⟨512, 512, fp⟩, ⟨512, 512, fp⟩, ⟨512, num_classes, fp⟩⟩

/-- Trace of `VGGCurve.forward` (vgg.py lines 131-150): the same zip-driven
block loop as `VGGBase.forward` except that every layer call passes
`coeffs_t`; then flatten, `dropout1` (an `nn.Dropout()` whose default
probability is 1/2), `fc1(x, coeffs_t)`, `relu1`, `dropout2`,
`fc2(x, coeffs_t)`, `relu2`, `fc3(x, coeffs_t)`. -/
def VGGCurve.forwardTrace (m : VGGCurve) : List Op :=
  ((m.layer_blocks.zip (m.activation_blocks.zip m.poolings)).flatMap fun bl =>
      ((bl.1.zip bl.2.1).flatMap fun la => [Op.apply_layer la.1 true, Op.apply_act la.2 false])
        ++ [Op.apply_pool bl.2.2 false])
    ++ [Op.flatten_view,
        Op.apply_classifier (ClassifierLayer.dropout (1/2)) false,
        Op.apply_curve_linear m.fc1 true,
        Op.apply_classifier (ClassifierLayer.relu true) false,
        Op.apply_classifier (ClassifierLayer.dropout (1/2)) false,
        Op.apply_curve_linear m.fc2 true,
        Op.apply_classifier (ClassifierLayer.relu true) false,
        Op.apply_curve_linear m.fc3 true]

/-- Record of one action of the `VGGCurve` initialization loop (vgg.py lines
124-129) on a `curves.Conv2d` module: for each `i` in `range(num_bends)` the
endpoint tensor `weight_i` is redrawn from a normal distribution with the
recorded mean and squared standard deviation and `bias_i` is zeroed; the two
counters record how many endpoint weights and biases are so initialized. -/
structure CurveConvInitAction where
  mean : ℚ
  sq_std : ℚ
  weights_redrawn : Nat
  biases_zeroed : Nat
  deriving DecidableEq

/-- Actions of the `VGGCurve` init loop (vgg.py lines 124-129) over
`self.modules()`: every `curves.Conv2d` is initialized.  Modelled from the
spec: `curves.py` is not part of `src/`, and per the spec's multi-bend curve
parametrization a `curves.Conv2d` keeps one endpoint weight tensor per entry
of `fix_points`, so `num_bends` is the length of its `fix_points`. -/
def curveInitActions (m : VGGCurve) : List (VLayer × CurveConvInitAction) :=
  m.layer_blocks.flatten.filterMap fun l =>
    match l with
    | VLayer.curveConv i o ks pd fp =>
        some (VLayer.curveConv i o ks pd fp,
              ⟨0, 2 / ((ks*ks*o : ℕ) : ℚ), fp.length, fp.length⟩)
    | _ => none

/-! Observers on the embedded data, used to state the claims. -/

/-- Whether a layer is a convolution (plain or curve). -/
def isConvL : VLayer → Bool
  | VLayer.plainConv _ _ _ _ => true
  | VLayer.curveConv _ _ _ _ _ => true
  | _ => false

/-- Whether a layer is a batch normalization (plain or curve). -/
def isBN : VLayer → Bool
  | VLayer.plainBN _ => true
  | VLayer.curveBN _ _ => true
  | _ => false

/-- Whether a layer comes from the plain torch constructors. -/
def isPlainLayer : VLayer → Bool
  | VLayer.plainConv _ _ _ _ => true
  | VLayer.plainBN _ => true
  | _ => false

/-- Whether a layer comes from the curve library and carries exactly the given
`fix_points`. -/
def isCurveWith (fp : FixPoints) : VLayer → Bool
  | VLayer.curveConv _ _ _ _ f => f == fp
  | VLayer.curveBN _ f => f == fp
  | _ => false

/-- Dispatch predicate of claim C3: plain layers when `fix_points` is `None`,
curve layers carrying that `fix_points` otherwise. -/
def modeFits : Option FixPoints → VLayer → Bool
  | none, l => isPlainLayer l
  | some fp, l => isCurveWith fp l

/-- Input and output channels of a convolution layer. -/
def convInOut : VLayer → Option (Nat × Nat)
  | VLayer.plainConv i o _ _ => some (i, o)
  | VLayer.curveConv i o _ _ _ => some (i, o)
  | _ => none

/-- Output channels of a convolution layer. -/
def convOutOf : VLayer → Option Nat
  | VLayer.plainConv _ o _ _ => some o
  | VLayer.curveConv _ o _ _ _ => some o
  | _ => none

/-- Feature count of a batch-normalization layer. -/
def bnFeaturesOf : VLayer → Option Nat
  | VLayer.plainBN f => some f
  | VLayer.curveBN f _ => some f
  | _ => none

/-- The (in, out) channel pairs of the convolutions of a layer list, in
order. -/
def convPairs (ls : List VLayer) : List (Nat × Nat) := ls.filterMap convInOut

/-- Whether a pair list is a chain starting at the given channel count: each
input equals the running value, which the output then replaces. -/
def chainedFrom : Nat → List (Nat × Nat) → Bool
  | _, [] => true
  | c, p :: rest => (p.1 == c) && chainedFrom p.2 rest

/-- The chain of (in, out) pairs obtained by threading a running channel count
through a list of output sizes. -/
def pairsOf : Nat → List Nat → List (Nat × Nat)
  | _, [] => []
  | c, ch :: rest => (c, ch) :: pairsOf ch rest

/-- Whether every convolution in the list is immediately followed by a
batch-normalization layer. -/
def everyConvFollowedByBN : List VLayer → Bool
  | [] => true
  | [l] => !(isConvL l)
  | x :: y :: rest => (!(isConvL x) || isBN y) && everyConvFollowedByBN (y :: rest)

/-- Whether the head of the list, if it is a batch normalization, is matched
by the given predecessor: a predecessor whose convolution output channels equal
the head's feature count. -/
def adjHeadOk (x : VLayer) : List VLayer → Bool
  | [] => true
  | y :: _ =>
      match bnFeaturesOf y with
      | none => true
      | some f => convOutOf x == some f

/-- Whether every batch normalization in the list is directly preceded by a
convolution with matching output channels (head excluded). -/
def bnAdjOk : List VLayer → Bool
  | [] => true
  | x :: rest => adjHeadOk x rest && bnAdjOk rest

/-- Whether the list does not begin with a batch normalization. -/
def headNotBN : List VLayer → Bool
  | [] => true
  | x :: _ => !(isBN x)

/-- Placement invariant of claim C10: every batch normalization directly
follows a convolution whose output channel count equals its feature count. -/
def bnPlacedOk (ls : List VLayer) : Bool := headNotBN ls && bnAdjOk ls

/-- Coefficient discipline of claim C1 on a trace step: learnable layers are
invoked with `coeffs_t`, every other module without. -/
def coeffsRuleOk : Op → Bool
  | Op.apply_layer _ c => c
  | Op.apply_curve_linear _ c => c
  | Op.apply_act _ c => !c
  | Op.apply_pool _ c => !c
  | Op.apply_classifier _ c => !c
  | _ => true

/-- The layers a trace actually applies, in order. -/
def appliedLayers (t : List Op) : List VLayer :=
  t.filterMap fun op =>
    match op with
    | Op.apply_layer l _ => some l
    | _ => none

/-- Whether a classifier module is a Linear layer. -/
def isLinearC : ClassifierLayer → Bool
  | ClassifierLayer.linear _ _ => true
  | _ => false

/-- Number of convolution layers of a `VGGBase`. -/
def VGGBase.convCount (m : VGGBase) : Nat :=
  (m.layer_blocks.flatten.filter isConvL).length

/-- Number of Linear layers in the classifier of a `VGGBase`. -/
def VGGBase.linearCount (m : VGGBase) : Nat :=
  (m.classifier.filter isLinearC).length

/-- Number of convolution layers of a `VGGCurve`. -/
def VGGCurve.convCount (m : VGGCurve) : Nat :=
  (m.layer_blocks.flatten.filter isConvL).length

/-- The fully-connected layers of a `VGGCurve`, as used by its forward pass. -/
def VGGCurve.fcLayers (m : VGGCurve) : List CurveLinear := [m.fc1, m.fc2, m.fc3]

/-- Output channel count of the last convolution of a `VGGCurve`. -/
def lastConvOut (m : VGGCurve) : Nat :=
  ((convPairs m.layer_blocks.flatten).getLastD (0, 0)).2

/-- Scalar parameter count of one layer, following the torch module shapes:
`Conv2d` stores a weight of shape (out, in, ks, ks) and a bias of shape (out);
`BatchNorm2d` stores a weight and a bias of shape (features); the curve
variants keep one endpoint copy of each tensor per bend. -/
def layerParamCount : VLayer → Nat
  | VLayer.plainConv i o ks _ => o * (i * ks * ks) + o
  | VLayer.curveConv i o ks _ fp => fp.length * (o * (i * ks * ks) + o)
  | VLayer.plainBN f => f + f
  | VLayer.curveBN f fp => fp.length * (f + f)

/-- Scalar parameter count of one classifier module: `Linear` stores a weight
of shape (out, in) and a bias of shape (out); dropout and ReLU have none. -/
def classifierParamCount : ClassifierLayer → Nat
  | ClassifierLayer.linear i o => o * i + o
  | _ => 0

/-- Total scalar parameter count of a `VGGBase`. -/
def VGGBase.paramCount (m : VGGBase) : Nat :=
  (m.layer_blocks.flatten.map layerParamCount).sum +
    (m.classifier.map classifierParamCount).sum

/-! Structural lemmas about `make_layers`, proved generically in the two layer
constructors so that the plain and the curve mode share one development. -/

theorem blockLayers_append (conv : Nat → Nat → VLayer) (bnF : Nat → VLayer) (bn : Bool)
    (c : Nat) (xs ys : List Nat) :
    blockLayers conv bnF bn c (xs ++ ys) =
      blockLayers conv bnF bn c xs ++ blockLayers conv bnF bn (lastChannels c xs) ys := by
  induction xs generalizing c with
  | nil => simp [blockLayers, lastChannels]
  | cons ch rest ih => simp [blockLayers, lastChannels, ih]

theorem flatten_layerBlocksFrom (conv : Nat → Nat → VLayer) (bnF : Nat → VLayer) (bn : Bool)
    (c : Nat) (config : List (List Nat)) :
    (layerBlocksFrom conv bnF bn c config).flatten =
      blockLayers conv bnF bn c config.flatten := by
  induction config generalizing c with
  | nil => simp [layerBlocksFrom, blockLayers]
  | cons sizes rest ih => simp [layerBlocksFrom, ih, blockLayers_append]

theorem layerBlocksFrom_length (conv : Nat → Nat → VLayer) (bnF : Nat → VLayer) (bn : Bool)
    (c : Nat) (config : List (List Nat)) :
    (layerBlocksFrom conv bnF bn c config).length = config.length := by
  induction config generalizing c with
  | nil => rfl
  | cons sizes rest ih => simp [layerBlocksFrom, ih]

theorem blockLayers_all (conv : Nat → Nat → VLayer) (bnF : Nat → VLayer) (bn : Bool)
    (P : VLayer → Bool) (hc : ∀ i o, P (conv i o) = true)
    (hb : ∀ ch, bn = true → P (bnF ch) = true) :
    ∀ c l, (blockLayers conv bnF bn c l).all P = true := by
  intro c l
  induction l generalizing c with
  | nil => rfl
  | cons ch rest ih =>
      cases bn with
      | false => simp [blockLayers, hc, ih]
      | true => simp [blockLayers, hc, hb ch rfl, ih]

theorem blockLayers_convCount (conv : Nat → Nat → VLayer) (bnF : Nat → VLayer) (bn : Bool)
    (hc : ∀ i o, isConvL (conv i o) = true) (hb : ∀ ch, isConvL (bnF ch) = false) :
    ∀ c l, ((blockLayers conv bnF bn c l).filter isConvL).length = l.length := by
  intro c l
  induction l generalizing c with
  | nil => rfl
  | cons ch rest ih =>
      cases bn with
      | false => simp [blockLayers, List.filter_cons, hc, ih]
      | true => simp [blockLayers, List.filter_cons, hc, hb, ih]

theorem blockLayers_convPairs (conv : Nat → Nat → VLayer) (bnF : Nat → VLayer) (bn : Bool)
    (hc : ∀ i o, convInOut (conv i o) = some (i, o)) (hb : ∀ ch, convInOut (bnF ch) = none) :
    ∀ c l, convPairs (blockLayers conv bnF bn c l) = pairsOf c l := by
  intro c l
  induction l generalizing c with
  | nil => rfl
  | cons ch rest ih =>
      cases bn <;>
        simp [blockLayers, convPairs, pairsOf, List.filterMap_cons, hc, hb] <;>
        exact ih ch

theorem chainedFrom_pairsOf (c : Nat) (l : List Nat) :
    chainedFrom c (pairsOf c l) = true := by
  induction l generalizing c with
  | nil => rfl
  | cons ch rest ih => simp [pairsOf, chainedFrom, ih]

theorem everyConvFollowedByBN_cons_nonconv (x : VLayer) (ls : List VLayer)
    (hx : isConvL x = false) (hls : everyConvFollowedByBN ls = true) :
    everyConvFollowedByBN (x :: ls) = true := by
  cases ls with
  | nil => simp [everyConvFollowedByBN, hx]
  | cons y r => simp [everyConvFollowedByBN, hx, hls]

theorem blockLayers_everyConvBN (conv : Nat → Nat → VLayer) (bnF : Nat → VLayer)
    (hb1 : ∀ ch, isBN (bnF ch) = true) (hb2 : ∀ ch, isConvL (bnF ch) = false) :
    ∀ c l, everyConvFollowedByBN (blockLayers conv bnF true c l) = true := by
  intro c l
  induction l generalizing c with
  | nil => rfl
  | cons ch rest ih =>
      have h1 : everyConvFollowedByBN (bnF ch :: blockLayers conv bnF true ch rest) = true :=
        everyConvFollowedByBN_cons_nonconv _ _ (hb2 ch) (ih ch)
      show everyConvFollowedByBN
        (conv c ch :: bnF ch :: blockLayers conv bnF true ch rest) = true
      simp [everyConvFollowedByBN, hb1, h1]

theorem adjHeadOk_blockLayers (conv : Nat → Nat → VLayer) (bnF : Nat → VLayer) (bn : Bool)
    (hbf : ∀ i o, bnFeaturesOf (conv i o) = none)
    (x : VLayer) (c : Nat) (l : List Nat) :
    adjHeadOk x (blockLayers conv bnF bn c l) = true := by
  cases l with
  | nil => rfl
  | cons ch rest =>
      show adjHeadOk x (conv c ch :: _) = true
      simp [adjHeadOk, hbf]

theorem bnAdjOk_blockLayers (conv : Nat → Nat → VLayer) (bnF : Nat → VLayer) (bn : Bool)
    (hbf : ∀ i o, bnFeaturesOf (conv i o) = none)
    (hco : ∀ i o, convOutOf (conv i o) = some o)
    (hbfb : ∀ ch, bnFeaturesOf (bnF ch) = some ch) :
    ∀ c l, bnAdjOk (blockLayers conv bnF bn c l) = true := by
  intro c l
  induction l generalizing c with
  | nil => rfl
  | cons ch rest ih =>
      cases bn with
      | false =>
          show bnAdjOk (conv c ch :: blockLayers conv bnF false ch rest) = true
          simp [bnAdjOk, adjHeadOk_blockLayers conv bnF false hbf, ih]
      | true =>
          show bnAdjOk (conv c ch :: bnF ch :: blockLayers conv bnF true ch rest) = true
          have h1 : adjHeadOk (conv c ch)
              (bnF ch :: blockLayers conv bnF true ch rest) = true := by
            simp [adjHeadOk, hbfb, hco]
          have h2 : adjHeadOk (bnF ch) (blockLayers conv bnF true ch rest) = true :=
            adjHeadOk_blockLayers conv bnF true hbf (bnF ch) ch rest
          simp [bnAdjOk, h1, h2, ih]

theorem headNotBN_blockLayers (conv : Nat → Nat → VLayer) (bnF : Nat → VLayer) (bn : Bool)
    (hnb : ∀ i o, isBN (conv i o) = false) (c : Nat) (l : List Nat) :
    headNotBN (blockLayers conv bnF bn c l) = true := by
  cases l with
  | nil => rfl
  | cons ch rest =>
      show headNotBN (conv c ch :: _) = true
      simp [headNotBN, hnb]

/-! Behaviour of the two constructor selections of `make_layers` on the
observers, uniformly in the `fix_points` option. -/

theorem convCtor_isConv (fp? : Option FixPoints) (i o : Nat) :
    isConvL (convCtor fp? i o) = true := by cases fp? <;> rfl

theorem convCtor_notBN (fp? : Option FixPoints) (i o : Nat) :
    isBN (convCtor fp? i o) = false := by cases fp? <;> rfl

theorem convCtor_inOut (fp? : Option FixPoints) (i o : Nat) :
    convInOut (convCtor fp? i o) = some (i, o) := by cases fp? <;> rfl

theorem convCtor_out (fp? : Option FixPoints) (i o : Nat) :
    convOutOf (convCtor fp? i o) = some o := by cases fp? <;> rfl

theorem convCtor_bnFeatures (fp? : Option FixPoints) (i o : Nat) :
    bnFeaturesOf (convCtor fp? i o) = none := by cases fp? <;> rfl

theorem bnCtor_notConv (fp? : Option FixPoints) (ch : Nat) :
    isConvL (bnCtor fp? ch) = false := by cases fp? <;> rfl

theorem bnCtor_isBN (fp? : Option FixPoints) (ch : Nat) :
    isBN (bnCtor fp? ch) = true := by cases fp? <;> rfl

theorem bnCtor_inOut (fp? : Option FixPoints) (ch : Nat) :
    convInOut (bnCtor fp? ch) = none := by cases fp? <;> rfl

theorem bnCtor_bnFeatures (fp? : Option FixPoints) (ch : Nat) :
    bnFeaturesOf (bnCtor fp? ch) = some ch := by cases fp? <;> rfl

theorem convCtor_modeFits (fp? : Option FixPoints) (i o : Nat) :
    modeFits fp? (convCtor fp? i o) = true := by
  cases fp? <;> simp [modeFits, convCtor, isPlainLayer, isCurveWith]

theorem bnCtor_modeFits (fp? : Option FixPoints) (ch : Nat) :
    modeFits fp? (bnCtor fp? ch) = true := by
  cases fp? <;> simp [modeFits, bnCtor, isPlainLayer, isCurveWith]

theorem layerBlocksFrom_zip_relu (conv : Nat → Nat → VLayer) (bnF : Nat → VLayer) (bn : Bool)
    (hc : ∀ i o, isConvL (conv i o) = true) (hb : ∀ ch, isConvL (bnF ch) = false) :
    ∀ c (config : List (List Nat)),
      (((layerBlocksFrom conv bnF bn c config).zip
          (config.map fun sizes => sizes.map fun _ => ActLayer.relu true)).all fun b =>
        ((b.1.filter isConvL).length == b.2.length) &&
          b.2.all (fun a => a == ActLayer.relu true)) = true := by
  intro c config
  induction config generalizing c with
  | nil => rfl
  | cons sizes rest ih =>
      simp only [layerBlocksFrom, List.map_cons, List.zip_cons_cons, List.all_cons,
                 Bool.and_eq_true]
      refine ⟨?_, ih (lastChannels c sizes)⟩
      simp [blockLayers_convCount conv bnF bn hc hb]

/-- C5: `get_config(depth, k)` returns the k-scaled five-block configuration
for depth 16, and for every other depth the fixed 64/128/256/512
configuration, independent of k. -/
theorem claim_C5 :
    (∀ k : Nat, get_config 16 k =
      [[k, k], [k*2, k*2], [k*4, k*4, k*4], [k*8, k*8, k*8], [k*8, k*8, k*8]]) ∧
    (∀ depth k : Nat, depth ≠ 16 → get_config depth k =
      [[64, 64], [128, 128], [256, 256, 256, 256], [512, 512, 512, 512],
       [512, 512, 512, 512]]) := by
  constructor
  · intro k; rfl
  · intro depth k h; simp [get_config, h]

/-- Witness for C5 at depth 19, k = 7. -/
theorem claim_C5_witness :
    get_config 19 7 =
      [[64, 64], [128, 128], [256, 256, 256, 256], [512, 512, 512, 512],
       [512, 512, 512, 512]] :=
  claim_C5.2 19 7 (by decide)

/-- C10: for every config, both batch_norm modes and both fix_points modes,
the convolutions of `make_layers` chain from 3 input channels (each input
channel count equals the previous output), and every batch-normalization
layer directly follows a convolution whose output channels equal its feature
count. -/
theorem claim_C10 (config : List (List Nat)) (bn : Bool) (fp? : Option FixPoints) :
    chainedFrom 3 (convPairs ((make_layers config bn fp?).1.flatten)) = true ∧
    bnPlacedOk ((make_layers config bn fp?).1.flatten) = true := by
  constructor
  · show chainedFrom 3
      (convPairs ((layerBlocksFrom (convCtor fp?) (bnCtor fp?) bn 3 config).flatten)) = true
    rw [flatten_layerBlocksFrom,
        blockLayers_convPairs _ _ bn (convCtor_inOut fp?) (bnCtor_inOut fp?)]
    exact chainedFrom_pairsOf 3 config.flatten
  · show bnPlacedOk ((layerBlocksFrom (convCtor fp?) (bnCtor fp?) bn 3 config).flatten) = true
    rw [flatten_layerBlocksFrom]
    unfold bnPlacedOk
    rw [headNotBN_blockLayers _ _ bn (convCtor_notBN fp?),
        bnAdjOk_blockLayers _ _ bn (convCtor_bnFeatures fp?) (convCtor_out fp?)
          (bnCtor_bnFeatures fp?)]
    rfl

/-- C3: `make_layers` dispatches on fix_points (plain torch layers without
extra arguments when it is None, curve layers all carrying the given
fix_points otherwise); a batch-normalization layer immediately follows each
convolution iff batch_norm is true (and none exists otherwise); there is
exactly one ReLU(inplace=True) per convolution, blockwise; and exactly one
MaxPool2d(kernel_size=2, stride=2) per config block. -/
theorem claim_C3 (config : List (List Nat)) (bn : Bool) (fp? : Option FixPoints) :
    ((make_layers config bn fp?).1.flatten.all (modeFits fp?) = true) ∧
    ((if bn then everyConvFollowedByBN ((make_layers config bn fp?).1.flatten)
      else (make_layers config bn fp?).1.flatten.all fun l => !(isBN l)) = true) ∧
    ((make_layers config bn fp?).1.length = (make_layers config bn fp?).2.1.length) ∧
    ((((make_layers config bn fp?).1.zip (make_layers config bn fp?).2.1).all fun b =>
        ((b.1.filter isConvL).length == b.2.length) &&
          b.2.all (fun a => a == ActLayer.relu true)) = true) ∧
    ((make_layers config bn fp?).2.2 = config.map fun _ => PoolLayer.maxPool2d 2 2) := by
  refine ⟨?_, ?_, ?_, ?_, rfl⟩
  · show ((layerBlocksFrom (convCtor fp?) (bnCtor fp?) bn 3 config).flatten.all
      (modeFits fp?)) = true
    rw [flatten_layerBlocksFrom]
    exact blockLayers_all _ _ bn _ (convCtor_modeFits fp?)
      (fun ch _ => bnCtor_modeFits fp? ch) 3 config.flatten
  · cases bn with
    | true =>
        show everyConvFollowedByBN
          ((layerBlocksFrom (convCtor fp?) (bnCtor fp?) true 3 config).flatten) = true
        rw [flatten_layerBlocksFrom]
        exact blockLayers_everyConvBN _ _ (bnCtor_isBN fp?) (bnCtor_notConv fp?)
          3 config.flatten
    | false =>
        show ((layerBlocksFrom (convCtor fp?) (bnCtor fp?) false 3 config).flatten.all
          fun l => !(isBN l)) = true
        rw [flatten_layerBlocksFrom]
        exact blockLayers_all _ _ false _
          (fun i o => by simp [convCtor_notBN fp? i o])
          (fun ch h => by simp at h) 3 config.flatten
  · show (layerBlocksFrom (convCtor fp?) (bnCtor fp?) bn 3 config).length =
      (config.map fun sizes => sizes.map fun _ => ActLayer.relu true).length
    rw [layerBlocksFrom_length, List.length_map]
  · exact layerBlocksFrom_zip_relu _ _ bn (convCtor_isConv fp?) (bnCtor_notConv fp?) 3 config

/-- C4: for depth 16 the networks hold the 13 convolutions listed by
`get_config` plus three fully-connected layers (16 learnable weight layers in
all), and for depth 19 (the non-16 branch of `get_config`) 16 convolutions
plus three fully-connected layers (19 in all), in both the base and the curve
variant, for every width, dropout rate and batch_norm mode. -/
theorem claim_C4 (nc k : Nat) (bn : Bool) (p : ℚ) (uIN : Bool) (fp : FixPoints) :
    ((VGGBase.init nc 16 bn k p uIN).convCount = 13 ∧
     (VGGBase.init nc 16 bn k p uIN).linearCount = 3) ∧
    ((VGGBase.init nc 19 bn k p uIN).convCount = 16 ∧
     (VGGBase.init nc 19 bn k p uIN).linearCount = 3) ∧
    ((VGGCurve.init nc fp 16 k bn).convCount = 13 ∧
     (VGGCurve.init nc fp 16 k bn).fcLayers.length = 3) ∧
    ((VGGCurve.init nc fp 19 k bn).convCount = 16 ∧
     (VGGCurve.init nc fp 19 k bn).fcLayers.length = 3) := by
  cases bn <;> exact ⟨⟨rfl, rfl⟩, ⟨rfl, rfl⟩, ⟨rfl, rfl⟩, ⟨rfl, rfl⟩⟩

/-- C9: for every width k and class count, `get_size(k, num_classes)` is
exactly the total number of scalar parameters of the depth-16 `VGGBase`
network with width k, batch_norm false and use_InstanceNorm false. -/
theorem claim_C9 (k nc : Nat) (p : ℚ) :
    (VGGBase.init nc 16 false k p false).paramCount = get_size k nc := by
  simp [VGGBase.init, make_layers, get_config, layerBlocksFrom, blockLayers,
        lastChannels, convCtor, bnCtor, VGGBase.paramCount, layerParamCount,
        classifierParamCount, get_size]
  ring

theorem np_round_natCast (m : ℕ) : np_round (m : ℝ) = (m : ℝ) := by
  unfold np_round
  rw [Int.fract_natCast]
  rw [if_neg (by norm_num)]
  rw [round_natCast]
  norm_num

theorem compute_k_get_size (nc : ℕ) (k : ℝ) (hk : 0 ≤ k) :
    compute_k (get_size k (nc : ℝ)) (nc : ℝ) = np_round k := by
  simp only [compute_k, get_size]
  refine congrArg np_round ?_
  have hnc : (0 : ℝ) ≤ (nc : ℝ) := Nat.cast_nonneg nc
  rw [show 4*((1+2*1+2*2+4*2+2*4*4+8*4+5*8*8)*9 + 2*8*8) *
        ((3*9+2+2*2+4*3+8*8+8*(nc:ℝ))*k +
          ((1+2*1+2*2+4*2+2*4*4+8*4+5*8*8)*9 + 2*8*8)*k*k + (nc:ℝ)) +
        ((3*9+2+2*2+4*3+8*8+8*(nc:ℝ))^2 -
          4*((1+2*1+2*2+4*2+2*4*4+8*4+5*8*8)*9 + 2*8*8)*(nc:ℝ)) =
      (2*((1+2*1+2*2+4*2+2*4*4+8*4+5*8*8)*9 + 2*8*8)*k +
        (3*9+2+2*2+4*3+8*8+8*(nc:ℝ)))^2 from by ring]
  rw [Real.sqrt_sq (by nlinarith)]
  ring

/-- C8: under exact real arithmetic, `compute_k` inverts `get_size`: for every
positive real k, `compute_k(get_size(k, nc), nc)` equals the (numpy, half to
even) rounding of k, and for every positive integer k the round trip returns
exactly k. -/
theorem claim_C8 (nc : ℕ) :
    (∀ k : ℝ, 0 < k → compute_k (get_size k (nc : ℝ)) (nc : ℝ) = np_round k) ∧
    (∀ m : ℕ, 0 < m → compute_k (get_size (m : ℝ) (nc : ℝ)) (nc : ℝ) = (m : ℝ)) := by
  constructor
  · exact fun k hk => compute_k_get_size nc k hk.le
  · intro m _
    rw [compute_k_get_size nc (m : ℝ) (Nat.cast_nonneg m), np_round_natCast]

/-- Witness for C8 at num_classes = 100, k = 2 and at the integer k = 3. -/
theorem claim_C8_witness :
    compute_k (get_size (2 : ℝ) ((100 : ℕ) : ℝ)) ((100 : ℕ) : ℝ) = np_round 2 ∧
    compute_k (get_size ((3 : ℕ) : ℝ) ((100 : ℕ) : ℝ)) ((100 : ℕ) : ℝ) = ((3 : ℕ) : ℝ) :=
  ⟨(claim_C8 100).1 2 (by norm_num), (claim_C8 100).2 3 (by norm_num)⟩

/-- C2 (failing-input evaluation): at depth 16 and width k = 1 the curve
variant is internally inconsistent — `fc1` is built with 512 input features
regardless of k, while the final convolution listed by `get_config(16, 1)`
outputs 8*1 = 8 channels; `VGGBase` uses `config[-1][-1]` and `8*k` here, so
the hardcoded 512 contradicts the claimed (and clearly intended) invariant for
every k other than 64. -/
theorem claim_C2 :
    (VGGCurve.init 10 [true] 16 1 false).fc1.in_features = 512 ∧
    lastConvOut (VGGCurve.init 10 [true] 16 1 false) = 8 ∧
    (VGGCurve.init 10 [true] 16 1 false).fc1.in_features ≠
      lastConvOut (VGGCurve.init 10 [true] 16 1 false) := by
  exact ⟨rfl, by decide, by decide⟩

/-- Whether every convolution of a layer was built with kernel_size 3. -/
def kernel3Ok : VLayer → Bool
  | VLayer.plainConv _ _ ks _ => ks == 3
  | VLayer.curveConv _ _ ks _ _ => ks == 3
  | _ => true

theorem make_layers_kernel3 (config : List (List Nat)) (bn : Bool) (fp? : Option FixPoints) :
    ((make_layers config bn fp?).1.flatten.all kernel3Ok) = true := by
  show ((layerBlocksFrom (convCtor fp?) (bnCtor fp?) bn 3 config).flatten.all kernel3Ok) = true
  rw [flatten_layerBlocksFrom]
  exact blockLayers_all _ _ bn _ (fun i o => by cases fp? <;> rfl)
    (fun ch _ => by cases fp? <;> rfl) 3 config.flatten

theorem make_layers_curveWith (config : List (List Nat)) (bn : Bool) (fp : FixPoints) :
    ((make_layers config bn (some fp)).1.flatten.all (isCurveWith fp)) = true := by
  show ((layerBlocksFrom (convCtor (some fp)) (bnCtor (some fp)) bn 3 config).flatten.all
    (isCurveWith fp)) = true
  rw [flatten_layerBlocksFrom]
  exact blockLayers_all _ _ bn _ (fun i o => by simp [convCtor, isCurveWith])
    (fun ch _ => by simp [bnCtor, isCurveWith]) 3 config.flatten

/-- C6: the construction-time initialization loops cover every convolution.
In `VGGBase` every `nn.Conv2d` (all of which have kernel_size 3) receives an
init action redrawing its weight from a normal distribution with mean 0 and
standard deviation sqrt(2/n) — recorded by its square 2/n — for
n = kernel_size^2 * out_channels = 9 * out_channels, and zeroing its bias; in
`VGGCurve` the same holds for every `curves.Conv2d`, whose fix_points is the
given one, with all `num_bends = fix_points.length` endpoint weights redrawn
and endpoint biases zeroed. -/
theorem claim_C6 (nc d k : Nat) (bn : Bool) (p : ℚ) (uIN : Bool) (fp : FixPoints) :
    (∀ l ∈ (VGGBase.init nc d bn k p uIN).layer_blocks.flatten,
      ∀ i o ks pd, l = VLayer.plainConv i o ks pd →
        ks = 3 ∧
        (l, (⟨0, 2 / ((9*o : ℕ) : ℚ), true⟩ : ConvInitAction)) ∈
          baseInitActions (VGGBase.init nc d bn k p uIN)) ∧
    (∀ l ∈ (VGGCurve.init nc fp d k bn).layer_blocks.flatten,
      ∀ i o ks pd f, l = VLayer.curveConv i o ks pd f →
        ks = 3 ∧ f = fp ∧
        (l, (⟨0, 2 / ((9*o : ℕ) : ℚ), fp.length, fp.length⟩ : CurveConvInitAction)) ∈
          curveInitActions (VGGCurve.init nc fp d k bn)) := by
  constructor
  · intro l hl i o ks pd he
    have hall : (VGGBase.init nc d bn k p uIN).layer_blocks.flatten.all kernel3Ok = true :=
      make_layers_kernel3 (get_config d k) bn none
    have h3 : ks = 3 := by
      have := List.all_eq_true.mp hall l hl
      rw [he] at this
      simpa [kernel3Ok] using this
    subst he
    subst h3
    refine ⟨rfl, List.mem_filterMap.mpr ⟨VLayer.plainConv i o 3 pd, hl, rfl⟩⟩
  · intro l hl i o ks pd f he
    have hall : (VGGCurve.init nc fp d k bn).layer_blocks.flatten.all kernel3Ok = true :=
      make_layers_kernel3 (get_config d k) bn (some fp)
    have h3 : ks = 3 := by
      have := List.all_eq_true.mp hall l hl
      rw [he] at this
      simpa [kernel3Ok] using this
    have hcw : (VGGCurve.init nc fp d k bn).layer_blocks.flatten.all (isCurveWith fp) = true :=
      make_layers_curveWith (get_config d k) bn fp
    have hf : f = fp := by
      have := List.all_eq_true.mp hcw l hl
      rw [he] at this
      simpa [isCurveWith] using this
    subst he
    subst h3
    subst hf
    exact ⟨rfl, rfl, List.mem_filterMap.mpr ⟨VLayer.curveConv i o 3 pd f, hl, rfl⟩⟩

/-- Witness for C6: the first convolution of a depth-16, width-2 base network
and of the corresponding two-bend curve network. -/
theorem claim_C6_witness :
    (3 = 3 ∧
      (VLayer.plainConv 3 2 3 1, (⟨0, 2 / ((9*2 : ℕ) : ℚ), true⟩ : ConvInitAction)) ∈
        baseInitActions (VGGBase.init 5 16 false 2 (1/2) false)) ∧
    (3 = 3 ∧ [true, false] = [true, false] ∧
      (VLayer.curveConv 3 2 3 1 [true, false],
        (⟨0, 2 / ((9*2 : ℕ) : ℚ), 2, 2⟩ : CurveConvInitAction)) ∈
        curveInitActions (VGGCurve.init 5 [true, false] 16 2 false)) :=
  ⟨(claim_C6 5 16 2 false (1/2) false [true, false]).1 (VLayer.plainConv 3 2 3 1)
      (by decide) 3 2 3 1 rfl,
   (claim_C6 5 16 2 false (1/2) false [true, false]).2 (VLayer.curveConv 3 2 3 1 [true, false])
      (by decide) 3 2 3 1 [true, false] rfl⟩

theorem curve_trace_coeffs (m : VGGCurve) : m.forwardTrace.all coeffsRuleOk = true := by
  unfold VGGCurve.forwardTrace
  rw [List.all_append]
  refine (Bool.and_eq_true _ _).mpr ⟨?_, by simp [coeffsRuleOk]⟩
  apply List.all_eq_true.mpr
  intro op hop
  obtain ⟨bl, -, hop⟩ := List.mem_flatMap.mp hop
  rcases List.mem_append.mp hop with hop | hop
  · obtain ⟨la, -, hop⟩ := List.mem_flatMap.mp hop
    simp only [List.mem_cons, List.not_mem_nil, or_false] at hop
    rcases hop with rfl | rfl <;> rfl
  · simp only [List.mem_cons, List.not_mem_nil, or_false] at hop
    subst hop
    rfl

theorem curve_trace_fc_mem (m : VGGCurve) :
    Op.apply_curve_linear m.fc1 true ∈ m.forwardTrace ∧
    Op.apply_curve_linear m.fc2 true ∈ m.forwardTrace ∧
    Op.apply_curve_linear m.fc3 true ∈ m.forwardTrace := by
  refine ⟨?_, ?_, ?_⟩ <;>
    · unfold VGGCurve.forwardTrace
      exact List.mem_append_right _ (by simp)

theorem curve_applied_all_16 (nc k : Nat) (fp : FixPoints) :
    appliedLayers (VGGCurve.init nc fp 16 k false).forwardTrace =
      (VGGCurve.init nc fp 16 k false).layer_blocks.flatten := rfl

theorem curve_applied_all_deep (nc k d : Nat) (fp : FixPoints) (h : d ≠ 16) :
    appliedLayers (VGGCurve.init nc fp d k false).forwardTrace =
      (VGGCurve.init nc fp d k false).layer_blocks.flatten := by
  have hcfg : get_config d k = [[64, 64], [128, 128], [256, 256, 256, 256],
      [512, 512, 512, 512], [512, 512, 512, 512]] := by simp [get_config, h]
  simp only [VGGCurve.init]
  rw [hcfg]
  rfl

/-- C1 (amended): in `VGGCurve` every learnable layer is constructed from the
curve library with the given fix_points — the convolutions and batch
normalizations via `make_layers`, and fc1, fc2, fc3 as `curves.Linear`; every
learnable-layer invocation in `forward` passes `coeffs_t` and every
activation, pooling and dropout invocation passes no coefficients; the three
fully-connected layers are always invoked with `coeffs_t`; and when
`batch_norm` is false the layers invoked are exactly the constructed layers in
order, so `coeffs_t` reaches every learnable layer.  (When `batch_norm` is
true the zip in `forward` truncates each block, so some constructed layers are
never invoked at all; see the counterexample.) -/
theorem claim_C1 (nc k d : Nat) (fp : FixPoints) (bn : Bool) :
    ((VGGCurve.init nc fp d k bn).layer_blocks.flatten.all (isCurveWith fp) = true) ∧
    ((VGGCurve.init nc fp d k bn).fc1 = ⟨512, 512, fp⟩ ∧
     (VGGCurve.init nc fp d k bn).fc2 = ⟨512, 512, fp⟩ ∧
     (VGGCurve.init nc fp d k bn).fc3 = ⟨512, nc, fp⟩) ∧
    ((VGGCurve.init nc fp d k bn).forwardTrace.all coeffsRuleOk = true) ∧
    (Op.apply_curve_linear (VGGCurve.init nc fp d k bn).fc1 true ∈
        (VGGCurve.init nc fp d k bn).forwardTrace ∧
     Op.apply_curve_linear (VGGCurve.init nc fp d k bn).fc2 true ∈
        (VGGCurve.init nc fp d k bn).forwardTrace ∧
     Op.apply_curve_linear (VGGCurve.init nc fp d k bn).fc3 true ∈
        (VGGCurve.init nc fp d k bn).forwardTrace) ∧
    (bn = false →
      appliedLayers (VGGCurve.init nc fp d k bn).forwardTrace =
        (VGGCurve.init nc fp d k bn).layer_blocks.flatten) := by
  refine ⟨make_layers_curveWith (get_config d k) bn fp, ⟨rfl, rfl, rfl⟩,
          curve_trace_coeffs _, curve_trace_fc_mem _, ?_⟩
  rintro rfl
  rcases eq_or_ne d 16 with rfl | h
  · exact curve_applied_all_16 nc k fp
  · exact curve_applied_all_deep nc k d fp h

/-- Counterexample to C1 as stated: with batch_norm true (depth 16, k = 1,
fix_points [true]) the second convolution of the first block is constructed by
make_layers, but the zip in forward truncates the block to its first two
layers, so this layer is never invoked and coeffs_t is not passed to it. -/
theorem claim_C1_counterexample :
    VLayer.curveConv 1 1 3 1 [true] ∈
      (VGGCurve.init 10 [true] 16 1 true).layer_blocks.flatten ∧
    VLayer.curveConv 1 1 3 1 [true] ∉
      appliedLayers (VGGCurve.init 10 [true] 16 1 true).forwardTrace := by
  decide

/-- Witness for C1 at batch_norm = false, depth 16, k = 1, two bends. -/
theorem claim_C1_witness :
    appliedLayers (VGGCurve.init 10 [true, true] 16 1 false).forwardTrace =
      (VGGCurve.init 10 [true, true] 16 1 false).layer_blocks.flatten :=
  (claim_C1 10 1 16 [true, true] false).2.2.2.2 rfl

/-- Operation sequence asserted by claim C7 for the depth-16 base network with
batch_norm false: each convolution immediately followed by its ReLU, one
max-pooling after each block, flatten, the classifier stack (Dropout, Linear,
ReLU, Dropout, Linear, ReLU, Linear), and the InstanceNorm1d step — with its
two surrounding reshaping views — iff use_InstanceNorm. -/
def claimedBaseTrace16 (nc k : Nat) (p : ℚ) (uIN : Bool) : List Op :=
  [Op.apply_layer (VLayer.plainConv 3 k 3 1) false, Op.apply_act (ActLayer.relu true) false,
   Op.apply_layer (VLayer.plainConv k k 3 1) false, Op.apply_act (ActLayer.relu true) false,
   Op.apply_pool (PoolLayer.maxPool2d 2 2) false,
   Op.apply_layer (VLayer.plainConv k (k*2) 3 1) false, Op.apply_act (ActLayer.relu true) false,
   Op.apply_layer (VLayer.plainConv (k*2) (k*2) 3 1) false,
   Op.apply_act (ActLayer.relu true) false,
   Op.apply_pool (PoolLayer.maxPool2d 2 2) false,
   Op.apply_layer (VLayer.plainConv (k*2) (k*4) 3 1) false,
   Op.apply_act (ActLayer.relu true) false,
   Op.apply_layer (VLayer.plainConv (k*4) (k*4) 3 1) false,
   Op.apply_act (ActLayer.relu true) false,
   Op.apply_layer (VLayer.plainConv (k*4) (k*4) 3 1) false,
   Op.apply_act (ActLayer.relu true) false,
   Op.apply_pool (PoolLayer.maxPool2d 2 2) false,
   Op.apply_layer (VLayer.plainConv (k*4) (k*8) 3 1) false,
   Op.apply_act (ActLayer.relu true) false,
   Op.apply_layer (VLayer.plainConv (k*8) (k*8) 3 1) false,
   Op.apply_act (ActLayer.relu true) false,
   Op.apply_layer (VLayer.plainConv (k*8) (k*8) 3 1) false,
   Op.apply_act (ActLayer.relu true) false,
   Op.apply_pool (PoolLayer.maxPool2d 2 2) false,
   Op.apply_layer (VLayer.plainConv (k*8) (k*8) 3 1) false,
   Op.apply_act (ActLayer.relu true) false,
   Op.apply_layer (VLayer.plainConv (k*8) (k*8) 3 1) false,
   Op.apply_act (ActLayer.relu true) false,
   Op.apply_layer (VLayer.plainConv (k*8) (k*8) 3 1) false,
   Op.apply_act (ActLayer.relu true) false,
   Op.apply_pool (PoolLayer.maxPool2d 2 2) false,
   Op.flatten_view,
   Op.apply_classifier (ClassifierLayer.dropout p) false,
   Op.apply_classifier (ClassifierLayer.linear (k*8) (8*k)) false,
   Op.apply_classifier (ClassifierLayer.relu true) false,
   Op.apply_classifier (ClassifierLayer.dropout p) false,
   Op.apply_classifier (ClassifierLayer.linear (8*k) (8*k)) false,
   Op.apply_classifier (ClassifierLayer.relu true) false,
   Op.apply_classifier (ClassifierLayer.linear (8*k) nc) false] ++
  (if uIN then [Op.reshape_3d, Op.apply_instance_norm nc, Op.reshape_2d] else [])

/-- Operation sequence asserted by claim C7 for the non-16 depths (the fixed
64/128/256/512 configuration) with batch_norm false. -/
def claimedBaseTraceDeep (nc k : Nat) (p : ℚ) (uIN : Bool) : List Op :=
  [Op.apply_layer (VLayer.plainConv 3 64 3 1) false, Op.apply_act (ActLayer.relu true) false,
   Op.apply_layer (VLayer.plainConv 64 64 3 1) false, Op.apply_act (ActLayer.relu true) false,
   Op.apply_pool (PoolLayer.maxPool2d 2 2) false,
   Op.apply_layer (VLayer.plainConv 64 128 3 1) false, Op.apply_act (ActLayer.relu true) false,
   Op.apply_layer (VLayer.plainConv 128 128 3 1) false, Op.apply_act (ActLayer.relu true) false,
   Op.apply_pool (PoolLayer.maxPool2d 2 2) false,
   Op.apply_layer (VLayer.plainConv 128 256 3 1) false, Op.apply_act (ActLayer.relu true) false,
   Op.apply_layer (VLayer.plainConv 256 256 3 1) false, Op.apply_act (ActLayer.relu true) false,
   Op.apply_layer (VLayer.plainConv 256 256 3 1) false, Op.apply_act (ActLayer.relu true) false,
   Op.apply_layer (VLayer.plainConv 256 256 3 1) false, Op.apply_act (ActLayer.relu true) false,
   Op.apply_pool (PoolLayer.maxPool2d 2 2) false,
   Op.apply_layer (VLayer.plainConv 256 512 3 1) false, Op.apply_act (ActLayer.relu true) false,
   Op.apply_layer (VLayer.plainConv 512 512 3 1) false, Op.apply_act (ActLayer.relu true) false,
   Op.apply_layer (VLayer.plainConv 512 512 3 1) false, Op.apply_act (ActLayer.relu true) false,
   Op.apply_layer (VLayer.plainConv 512 512 3 1) false, Op.apply_act (ActLayer.relu true) false,
   Op.apply_pool (PoolLayer.maxPool2d 2 2) false,
   Op.apply_layer (VLayer.plainConv 512 512 3 1) false, Op.apply_act (ActLayer.relu true) false,
   Op.apply_layer (VLayer.plainConv 512 512 3 1) false, Op.apply_act (ActLayer.relu true) false,
   Op.apply_layer (VLayer.plainConv 512 512 3 1) false, Op.apply_act (ActLayer.relu true) false,
   Op.apply_layer (VLayer.plainConv 512 512 3 1) false, Op.apply_act (ActLayer.relu true) false,
   Op.apply_pool (PoolLayer.maxPool2d 2 2) false,
   Op.flatten_view,
   Op.apply_classifier (ClassifierLayer.dropout p) false,
   Op.apply_classifier (ClassifierLayer.linear 512 (8*k)) false,
   Op.apply_classifier (ClassifierLayer.relu true) false,
   Op.apply_classifier (ClassifierLayer.dropout p) false,
   Op.apply_classifier (ClassifierLayer.linear (8*k) (8*k)) false,
   Op.apply_classifier (ClassifierLayer.relu true) false,
   Op.apply_classifier (ClassifierLayer.linear (8*k) nc) false] ++
  (if uIN then [Op.reshape_3d, Op.apply_instance_norm nc, Op.reshape_2d] else [])

/-- C7 (amended): when batch_norm is false, `VGGBase.forward` applies, for
each block in order, each layer followed by its activation, then the block's
max-pooling, then flattens, applies the classifier (Dropout, Linear, ReLU,
Dropout, Linear, ReLU, Linear) and applies InstanceNorm1d iff
use_InstanceNorm — stated as the exact operation sequences for depth 16 and
for the non-16 branch.  (When batch_norm is true the zip in forward truncates
each block to its first activation-count layers, so not every layer is
applied; see the counterexample.) -/
theorem claim_C7 (nc k : Nat) (p : ℚ) (uIN : Bool) (d : Nat) :
    (VGGBase.init nc 16 false k p uIN).forwardTrace = claimedBaseTrace16 nc k p uIN ∧
    (d ≠ 16 →
      (VGGBase.init nc d false k p uIN).forwardTrace = claimedBaseTraceDeep nc k p uIN) := by
  constructor
  · cases uIN <;> rfl
  · intro h
    have hcfg : get_config d k = [[64, 64], [128, 128], [256, 256, 256, 256],
        [512, 512, 512, 512], [512, 512, 512, 512]] := by simp [get_config, h]
    simp only [VGGBase.init]
    rw [hcfg]
    cases uIN <;> rfl

/-- Counterexample to C7 as stated: with batch_norm true (depth 16, k = 1) the
second convolution of the first block is stored in layer_blocks, but
`VGGBase.forward` never applies it — zip pairs each block's layers with its
(shorter) activation list and drops the rest. -/
theorem claim_C7_counterexample :
    VLayer.plainConv 1 1 3 1 ∈
      (VGGBase.init 1 16 true 1 (1/2) false).layer_blocks.flatten ∧
    VLayer.plainConv 1 1 3 1 ∉
      appliedLayers (VGGBase.init 1 16 true 1 (1/2) false).forwardTrace := by
  decide

/-- Witness for C7 at depth 19 (the non-16 branch), with use_InstanceNorm. -/
theorem claim_C7_witness :
    (VGGBase.init 3 19 false 2 (1/2) true).forwardTrace =
      claimedBaseTraceDeep 3 2 (1/2) true :=
  (claim_C7 3 2 (1/2) true 19).2 (by decide)

end VGGSpec
